import Mathlib

/-!
Shallow embedding of the display-device settings engine of Sunshine
(`src/display_device` and `src/platform/windows/display_device`).

Conventions used throughout:
* `std::string` device ids are Lean `String`s.
* `active_topology_t = std::vector<std::vector<std::string>>` is
  `List (List String)`.
* Ordered maps (`std::map<std::string, T>`) are association lists kept in
  ascending key order (`mapInsert` mirrors `std::map::operator[]` placement).
* Unordered sets are duplicate-free `List String`s built by `insertUnique`.
* Machine integers (`unsigned int`, `long`) are `Nat`s; where a C++ range
  limit matters (`std::stol` throwing `std::out_of_range` for values above
  `LONG_MAX` of the 32-bit `long` used on the Windows target) the bound is
  made explicit.
* The display-control adapter primitives (`set_topology`, `set_hdr_states`,
  `set_display_modes`, `set_as_primary_device`, and the `get_*` queries) are
  the external contract of the engine (spec §6); they are modelled by an
  oracle environment (`Adapter`) whose n-th mutating call succeeds iff
  `setOk n`, and whose queries return arbitrary prescribed values.  Every
  mutating call is recorded in an execution log so that ordering claims are
  observable.
-/

namespace DisplayDevice

/-! ## Basic data model (`src/display_device/display_device.h`) -/

abbrev ActiveTopology := List (List String)

inductive HdrState where
  | unknown
  | disabled
  | enabled
deriving DecidableEq, Repr

structure Resolution where
  width : Nat
  height : Nat
deriving DecidableEq, Repr

structure RefreshRate where
  numerator : Nat
  denominator : Nat
deriving DecidableEq, Repr

structure DisplayMode where
  resolution : Resolution
  refresh_rate : RefreshRate
deriving DecidableEq, Repr

/-- `display_mode_t` is value-initialized (all zero) by `std::map::operator[]`
when a key is absent. -/
def DisplayMode.zero : DisplayMode := ⟨⟨0, 0⟩, ⟨0, 0⟩⟩

abbrev HdrStateMap := List (String × HdrState)

abbrev DeviceModeMap := List (String × DisplayMode)

inductive DeviceState where
  | inactive
  | active
  | primary
deriving DecidableEq, Repr

/-! ## Ordered-map and set helpers -/

/-- `operator<` on `std::string`: lexicographic byte comparison (equal to
codepoint-wise comparison of the character lists, since UTF-8 byte order
agrees with codepoint order). -/
def listCharLt : List Char → List Char → Bool
  | [], [] => false
  | [], _ :: _ => true
  | _ :: _, [] => false
  | a :: as, b :: bs =>
    if a.toNat < b.toNat then true
    else if b.toNat < a.toNat then false
    else listCharLt as bs
def strLt (a b : String) : Bool := listCharLt a.toList b.toList

/-- Key-ordered insertion mirroring `std::map` (`operator[]` followed by
assignment): replaces the value at an existing key, otherwise inserts the
pair at its sorted position. -/
def mapInsert {α : Type} (k : String) (v : α) : List (String × α) → List (String × α)
  | [] => [(k, v)]
  | (k', v') :: rest =>
    if strLt k k' then (k, v) :: (k', v') :: rest
    else if k == k' then (k, v) :: rest
    else (k', v') :: mapInsert k v rest

/-- `std::map::find`-style lookup. -/
def mapFind? {α : Type} (m : List (String × α)) (k : String) : Option α :=
  m.lookup k

/-- `std::unordered_set::insert`: add an element unless already present. -/
def insertUnique (x : String) (l : List String) : List String :=
  if l.contains x then l else l ++ [x]

/-! ## Topology helpers
(`src/platform/windows/display_device/device_topology.cpp` and
`settings_topology.cpp`) -/

/-- Insertion sort by a boolean `le`, standing in for `std::sort`.  It is
only applied through `sort_topology`, where any correct sort produces the
same (unique) ascending sequence. -/
def insertSorted {α : Type} (le : α → α → Bool) (x : α) : List α → List α
  | [] => [x]
  | y :: ys => if le x y then x :: y :: ys else y :: insertSorted le x ys

def sortBy {α : Type} (le : α → α → Bool) : List α → List α
  | [] => []
  | x :: xs => insertSorted le x (sortBy le xs)

/-- `operator<` on `std::vector<std::string>`: lexicographic comparison,
turned into a `≤` test for sorting. -/
def leListStr : List String → List String → Bool
  | [], _ => true
  | _ :: _, [] => false
  | a :: as, b :: bs =>
    if strLt a b then true else if strLt b a then false else leListStr as bs

/-- The `sort_topology` lambda of `is_topology_the_same`
(`device_topology.cpp:391-397`): sort every group, then sort the groups. -/
def sort_topology (t : ActiveTopology) : ActiveTopology :=
  sortBy leListStr (t.map (fun g => sortBy (fun a b => !strLt b a) g))

/-- `is_topology_the_same` (`device_topology.cpp:389-407`): equality of the
sort-normalized forms. -/
def is_topology_the_same (a b : ActiveTopology) : Bool :=
  decide (sort_topology a = sort_topology b)

/-- `is_topology_valid` (`device_topology.cpp:360-387`): non-empty, every
group of size 1 or 2, and no device id repeated anywhere. -/
def is_topology_valid (topology : ActiveTopology) : Bool :=
  !topology.isEmpty &&
  topology.all (fun g => !g.isEmpty && g.length ≤ 2) &&
  (topology.foldr (· ++ ·) []).Nodup

/-- `get_device_ids_from_topology` (`settings_topology.cpp:187-197`):
the set of ids appearing in the topology. -/
def get_device_ids_from_topology (t : ActiveTopology) : List String :=
  t.foldl (fun acc g => g.foldl (fun a d => insertUnique d a) acc) []

/-- `get_newly_enabled_devices_from_topology` (`settings_topology.cpp:199-209`):
ids found in the new topology but not in the previous one. -/
def get_newly_enabled_devices_from_topology (previous new_t : ActiveTopology) : List String :=
  (get_device_ids_from_topology new_t).filter
    (fun id => !(get_device_ids_from_topology previous).contains id)

/-- `is_device_found_in_active_topology` (`settings_topology.cpp:108-119`). -/
def is_device_found_in_active_topology (device_id : String) (t : ActiveTopology) : Bool :=
  t.any (fun g => g.any (fun d => d == device_id))

/-- `get_duplicate_devices` (`settings_topology.cpp:50-69`): the device id
itself in front, followed by every other member of any group that contains
it.  (The inner `break` in the C++ only leaves the scan of one group; the
outer loop visits every group.) -/
def get_duplicate_devices (device_id : String) (current_topology : ActiveTopology) :
    List String :=
  current_topology.foldl
    (fun acc g =>
      if g.any (fun d => d == device_id) then
        acc ++ g.filter (fun d => !(d == device_id))
      else acc)
    [device_id]

/-! ## Parsed config data (`src/display_device/parsed_config.h`) -/

inductive DevicePrep where
  | no_operation
  | ensure_active
  | ensure_primary
  | ensure_only_display
deriving DecidableEq, Repr

inductive ResolutionChange where
  | no_operation
  | automatic
  | manual
deriving DecidableEq, Repr

inductive RefreshRateChange where
  | no_operation
  | automatic
  | manual
deriving DecidableEq, Repr

inductive HdrPrep where
  | no_operation
  | automatic
deriving DecidableEq, Repr

structure ParsedConfig where
  device_id : String
  device_prep : DevicePrep
  resolution : Option Resolution
  refresh_rate : Option RefreshRate
  change_hdr_state : Option Bool
deriving DecidableEq, Repr

/-! ## Final-topology planning (`settings_topology.cpp:126-183`) -/

/-- `determine_final_topology`: literal translation.  `duplicated_devices`
is always produced by `get_duplicate_devices`, so its `front()` is the
resolved device id; `headD` with a default covers the (unreachable)
empty-list case of `std::vector::front`. -/
def determine_final_topology (device_prep : DevicePrep) (primary_device_requested : Bool)
    (duplicated_devices : List String) (current_topology : ActiveTopology) :
    ActiveTopology :=
  let front := duplicated_devices.headD ""
  if device_prep ≠ DevicePrep.no_operation then
    if device_prep = DevicePrep.ensure_only_display then
      if primary_device_requested then
        if current_topology.length > 1 then [duplicated_devices]
        else current_topology
      else
        if is_device_found_in_active_topology front current_topology then
          if duplicated_devices.length > 1 ∨ current_topology.length > 1 then [[front]]
          else current_topology
        else [[front]]
    else
      if primary_device_requested ∨ is_device_found_in_active_topology front current_topology then
        current_topology
      else current_topology ++ [[front]]
  else current_topology

/-- Claim C4's literal description of the `ensure_only_display` case,
written from the spec sentence: `[[duplicated_devices]]` when primary was
requested and the current topology has more than one group; otherwise
`[[device]]` when the device is inactive, duplicated, or other groups
exist; otherwise the current topology. -/
def final_topology_only_display_claimC4 (primary_device_requested : Bool) (device : String)
    (duplicated_devices : List String) (current_topology : ActiveTopology) :
    ActiveTopology :=
  if primary_device_requested ∧ current_topology.length > 1 then [duplicated_devices]
  else if ¬ is_device_found_in_active_topology device current_topology ∨
      duplicated_devices.length > 1 ∨ current_topology.length > 1 then [[device]]
  else current_topology

/-- Amended description of the `ensure_only_display` case: the
`[[device]]`-or-unchanged rule applies only when the device was requested
explicitly; when the primary display was requested and the current topology
has at most one group, the topology is left unchanged (even if that single
group is a mirror group). -/
def final_topology_only_display_amendedC4 (primary_device_requested : Bool) (device : String)
    (duplicated_devices : List String) (current_topology : ActiveTopology) :
    ActiveTopology :=
  if primary_device_requested then
    if current_topology.length > 1 then [duplicated_devices] else current_topology
  else if ¬ is_device_found_in_active_topology device current_topology ∨
      duplicated_devices.length > 1 ∨ current_topology.length > 1 then [[device]]
  else current_topology

/-- `determine_initial_topology_based_on_prev_config`
(`settings_topology.cpp:97-106`). -/
structure TopologyPair where
  initial : ActiveTopology
  modified : ActiveTopology
deriving DecidableEq, Repr

def determine_initial_topology_based_on_prev_config
    (previously_configured_topology : Option TopologyPair)
    (current_topology : ActiveTopology) : ActiveTopology :=
  match previously_configured_topology with
  | some p =>
    if is_topology_the_same p.modified current_topology then p.initial
    else current_topology
  | none => current_topology

/-! ## Adapter oracle environment

The display-control adapter (spec §6) is external to the engine; claims
quantify over "every pattern of adapter success/failure".  `Adapter.setOk n`
prescribes the outcome of the n-th mutating adapter call, and the `*Reads`
fields prescribe the successive results of the query primitives (the query
argument — a device-id set — does not constrain the oracle).  `World`
carries the call counters and a log of every mutating call in order. -/

inductive AdapterCall where
  | setTopology (t : ActiveTopology)
  | setHdrStates (states : HdrStateMap)
  | setDisplayModes (modes : DeviceModeMap)
  | setAsPrimary (device_id : String)
deriving DecidableEq, Repr

structure Adapter where
  devices : List (String × DeviceState)
  topReads : Nat → ActiveTopology
  modeReads : Nat → DeviceModeMap
  hdrReads : Nat → HdrStateMap
  primaryQ : String → Bool
  setOk : Nat → Bool
  saveOk : Bool

structure World where
  setIdx : Nat
  topIdx : Nat
  modeIdx : Nat
  hdrIdx : Nat
  calls : List AdapterCall
deriving DecidableEq, Repr

def World.init : World := ⟨0, 0, 0, 0, []⟩

def doSetCall (a : Adapter) (w : World) (c : AdapterCall) : Bool × World :=
  (a.setOk w.setIdx, { w with setIdx := w.setIdx + 1, calls := w.calls ++ [c] })

def readTopology (a : Adapter) (w : World) : ActiveTopology × World :=
  (a.topReads w.topIdx, { w with topIdx := w.topIdx + 1 })

/-- `get_current_display_modes(device_ids)`: the oracle prescribes the n-th
answer; the queried id set does not constrain it. -/
def readModes (a : Adapter) (w : World) (_device_ids : List String) : DeviceModeMap × World :=
  (a.modeReads w.modeIdx, { w with modeIdx := w.modeIdx + 1 })

/-- `get_current_hdr_states(device_ids)`, oracle-style like `readModes`. -/
def readHdr (a : Adapter) (w : World) (_device_ids : List String) : HdrStateMap × World :=
  (a.hdrReads w.hdrIdx, { w with hdrIdx := w.hdrIdx + 1 })

/-! ## Journal data (`settings_data.h`) and the revert engine
(`src/platform/windows/display_device/settings.cpp`) -/

/-- `settings_t::persistent_data_t` (named `data_t` in `settings_data.h`). -/
structure PersistentData where
  topology : TopologyPair
  original_primary_display : String
  original_modes : DeviceModeMap
  original_hdr_states : HdrStateMap
deriving DecidableEq, Repr

/-- `contains_modifications` (`settings.cpp:15-21`). -/
def contains_modifications (data : PersistentData) : Bool :=
  !is_topology_the_same data.topology.initial data.topology.modified ||
  !data.original_primary_display.isEmpty ||
  !data.original_modes.isEmpty ||
  !data.original_hdr_states.isEmpty

/-- `blank_hdr_states` (`settings.cpp:149-183`): toggle the target state of
every newly enabled device that has a non-`unknown` entry, push the toggled
map through the adapter, and (after a delay that is not modelled) report
whether that push succeeded.  No toggle needed means immediate success. -/
def toggled_hdr_state : HdrState → HdrState
  | HdrState.enabled => HdrState.disabled
  | HdrState.disabled => HdrState.enabled
  | HdrState.unknown => HdrState.unknown

def blank_hdr_states (a : Adapter) (w : World) (states : HdrStateMap)
    (newly_enabled_devices : List String) : Bool × World :=
  let toggled := states.map
    (fun p => if newly_enabled_devices.contains p.1 then (p.1, toggled_hdr_state p.2) else p)
  let state_changed := states.any
    (fun p => newly_enabled_devices.contains p.1 && !(p.2 == HdrState.unknown))
  if state_changed then doSetCall a w (AdapterCall.setHdrStates toggled)
  else (true, w)

/-- One field-restore step of `try_revert_settings` for the HDR map
(`settings.cpp:270-278`): clear the journal field iff the adapter call
succeeds, otherwise mark the revert partially failed. -/
def revert_restore_hdr (a : Adapter) (w : World) (data : PersistentData) (pfailed : Bool) :
    PersistentData × Bool × World :=
  if !data.original_hdr_states.isEmpty then
    let r := doSetCall a w (AdapterCall.setHdrStates data.original_hdr_states)
    if r.1 then ({ data with original_hdr_states := [] }, pfailed, r.2)
    else (data, true, r.2)
  else (data, pfailed, w)

/-- The display-mode restore step (`settings.cpp:280-288`, repeated verbatim
at `settings.cpp:290-298`). -/
def revert_restore_modes (a : Adapter) (w : World) (data : PersistentData) (pfailed : Bool) :
    PersistentData × Bool × World :=
  if !data.original_modes.isEmpty then
    let r := doSetCall a w (AdapterCall.setDisplayModes data.original_modes)
    if r.1 then ({ data with original_modes := [] }, pfailed, r.2)
    else (data, true, r.2)
  else (data, pfailed, w)

/-- The primary-display restore step (`settings.cpp:300-308`). -/
def revert_restore_primary (a : Adapter) (w : World) (data : PersistentData) (pfailed : Bool) :
    PersistentData × Bool × World :=
  if !data.original_primary_display.isEmpty then
    let r := doSetCall a w (AdapterCall.setAsPrimary data.original_primary_display)
    if r.1 then ({ data with original_primary_display := "" }, pfailed, r.2)
    else (data, true, r.2)
  else (data, pfailed, w)

structure RevertOut where
  ok : Bool
  data : PersistentData
  data_modified : Bool
  world : World
deriving DecidableEq, Repr

/-- `try_revert_settings` (`settings.cpp:244-334`).  Faithful points worth
noting against the source:
* the guard `have_changes_for_modified_topology` triggers the switch to the
  modified topology;
* under the modified topology the restore order is HDR states, then the
  display-modes block — which appears TWICE, verbatim, in the source
  (`settings.cpp:280-288` and `290-298`) — then the primary display;
* the `data_modified` out-parameter is never assigned anywhere in the
  function body, so the value the caller initialized is returned unchanged;
* the final switch to the initial topology and the HDR fix-up for newly
  enabled devices ignore the fix-up call results. -/
def try_revert_settings (a : Adapter) (w : World) (data : PersistentData)
    (data_modified : Bool) : RevertOut :=
  if !contains_modifications data then ⟨true, data, data_modified, w⟩
  else
    let have_changes := !data.original_primary_display.isEmpty ||
      !data.original_modes.isEmpty || !data.original_hdr_states.isEmpty
    let (current0, w) := readTopology a w
    let (data, pfailed, newly, current, w) :=
      if have_changes then
        let (ok, w) := doSetCall a w (AdapterCall.setTopology data.topology.modified)
        if ok then
          let newly := get_newly_enabled_devices_from_topology current0 data.topology.modified
          let current := data.topology.modified
          let (data, pf, w) := revert_restore_hdr a w data false
          let (data, pf, w) := revert_restore_modes a w data pf
          let (data, pf, w) := revert_restore_modes a w data pf
          let (data, pf, w) := revert_restore_primary a w data pf
          (data, pf, newly, current, w)
        else (data, true, ([] : List String), current0, w)
      else (data, false, ([] : List String), current0, w)
    let (ok, w) := doSetCall a w (AdapterCall.setTopology data.topology.initial)
    let (pfailed, newly, current) :=
      if ok then
        (pfailed,
          (get_newly_enabled_devices_from_topology current data.topology.initial).foldl
            (fun s id => insertUnique id s) newly,
          data.topology.initial)
      else (true, newly, current)
    let w :=
      if !newly.isEmpty then
        let (states, w) := readHdr a w (get_device_ids_from_topology current)
        let (_, w) := blank_hdr_states a w states newly
        let (_, w) := doSetCall a w (AdapterCall.setHdrStates states)
        w
      else w
    ⟨!pfailed, data, data_modified, w⟩

/-- The engine-visible persistence state: the in-memory journal
(`settings_t::persistent_data`) and the journal file contents on disk. -/
structure SettingsState where
  persistent_data : Option PersistentData
  fileData : Option PersistentData
deriving DecidableEq, Repr

structure RevertSettingsOut where
  ok : Bool
  state : SettingsState
  world : World
deriving DecidableEq, Repr

/-- `settings_t::revert_settings` (`settings.cpp:426-458`): load the journal
from disk when not cached; run `try_revert_settings` with a `data_updated`
flag initialized to `false`; on failure re-save the journal only if
`data_updated` was set (it never is — see `try_revert_settings`); on
success delete the journal file and drop the cached data. -/
def revert_settings (a : Adapter) (w : World) (s : SettingsState) : RevertSettingsOut :=
  let pd := match s.persistent_data with
    | some d => some d
    | none => s.fileData
  match pd with
  | none => ⟨true, { s with persistent_data := none }, w⟩
  | some d =>
    let r := try_revert_settings a w d false
    if !r.ok then
      ⟨false,
        { persistent_data := some r.data,
          fileData := if r.data_modified then (if a.saveOk then some r.data else s.fileData)
            else s.fileData },
        r.world⟩
    else ⟨true, { persistent_data := none, fileData := none }, r.world⟩

/-! ## Concrete scenarios for the revert-engine claims -/

def modeA : DisplayMode := ⟨⟨1920, 1080⟩, ⟨60, 1⟩⟩

/-- Journal with a pending display-mode and HDR restore; topologies agree. -/
def dataC1 : PersistentData :=
  ⟨⟨[["A"]], [["A"]]⟩, "", [("A", modeA)], [("A", HdrState.enabled)]⟩

/-- `dataC1` after the HDR restore succeeded and was cleared while the mode
restore kept failing. -/
def dataC1_partial : PersistentData :=
  ⟨⟨[["A"]], [["A"]]⟩, "", [("A", modeA)], []⟩

/-- Adapter for the C1 run: call 0 = switch to the modified topology (ok),
call 1 = HDR restore (ok), calls 2 and 3 = the two mode-restore attempts
(both fail), call 4 = switch to the initial topology (ok).  Saving the
journal file would succeed if attempted. -/
def adapterC1 : Adapter :=
  { devices := [],
    topReads := fun _ => [["A"]],
    modeReads := fun _ => [],
    hdrReads := fun _ => [],
    primaryQ := fun _ => false,
    setOk := fun n => !(n == 2 || n == 3),
    saveOk := true }

/-- Journal with only a pending display-mode restore. -/
def dataC3 : PersistentData := ⟨⟨[["A"]], [["A"]]⟩, "", [("A", modeA)], []⟩

/-- Adapter for the C3 run: call 0 = switch to the modified topology (ok),
call 1 = first mode-restore attempt (fails), call 2 = second (duplicated)
mode-restore attempt (succeeds), call 3 = switch to the initial topology
(ok). -/
def adapterC3 : Adapter :=
  { devices := [],
    topReads := fun _ => [["A"]],
    modeReads := fun _ => [],
    hdrReads := fun _ => [],
    primaryQ := fun _ => false,
    setOk := fun n => !(n == 1),
    saveOk := true }

/-! ## Result codes (`src/display_device/settings.h:16-37`)

`result_e` as declared: `success = 0`, `config_parse_fail = 700`, and the
remaining enumerators take consecutive values per C++ enumeration rules.
Note that the declared enumeration has a `validation_fail` enumerator and
no `revert_fail` enumerator, although the platform implementation
(`settings.cpp:501,520`) returns `result_e::revert_fail`. -/

inductive ResultE where
  | success
  | config_parse_fail
  | validation_fail
  | topology_fail
  | primary_display_fail
  | modes_fail
  | hdr_states_fail
  | file_save_fail
deriving DecidableEq, Repr

def result_code : ResultE → Nat
  | ResultE.success => 0
  | ResultE.config_parse_fail => 700
  | ResultE.validation_fail => 701
  | ResultE.topology_fail => 702
  | ResultE.primary_display_fail => 703
  | ResultE.modes_fail => 704
  | ResultE.hdr_states_fail => 705
  | ResultE.file_save_fail => 706

/-- The result values actually used by the platform applicator
(`src/platform/windows/display_device/settings.cpp`), including the
`revert_fail` it returns even though the header enum does not declare such
an enumerator (see claim C2). -/
inductive ApplyResult where
  | success
  | config_parse_fail
  | topology_fail
  | primary_display_fail
  | modes_fail
  | hdr_states_fail
  | file_save_fail
  | revert_fail
deriving DecidableEq, Repr

/-! ## Config parsing (`src/display_device/parsed_config.cpp`) -/

structure VideoConfig where
  output_name : String
  display_device_prep : DevicePrep
  resolution_change : ResolutionChange
  manual_resolution : String
  refresh_rate_change : RefreshRateChange
  manual_refresh_rate : String
  hdr_prep : HdrPrep
deriving Repr

structure LaunchSession where
  enable_sops : Bool
  width : Int
  height : Int
  fps : Int
  enable_hdr : Bool
deriving Repr

/-- `std::isspace` of the classic locale, used by `boost::algorithm::trim`. -/
def isSpaceCpp (c : Char) : Bool :=
  c == ' ' || c == '\t' || c == '\n' || c == '\x0b' || c == '\x0c' || c == '\r'

/-- `boost::algorithm::trim_copy`: drop leading and trailing whitespace. -/
def charTrim (cs : List Char) : List Char :=
  ((cs.dropWhile isSpaceCpp).reverse.dropWhile isSpaceCpp).reverse

def digitStep (n : Nat) (c : Char) : Nat := n * 10 + (c.toNat - '0'.toNat)

/-- Numeric value of a digit string. -/
def digitsVal (ds : List Char) : Nat :=
  ds.foldl digitStep 0

/-- `LONG_MAX` of the 32-bit `long` used by `std::stol` on the Windows
target (MSYS2 UCRT64, LLP64): parsing a digit string whose value exceeds it
throws `std::out_of_range`, which the source catches and turns into a parse
failure. -/
def LONG_MAX_32 : Nat := 2 ^ 31 - 1

/-- `std::stol` on an all-digit string: its value, or `none` on overflow. -/
def stolDigits (ds : List Char) : Option Nat :=
  if digitsVal ds ≤ LONG_MAX_32 then some (digitsVal ds) else none

/-- The `manual` arm of `parse_refresh_rate_option`
(`parsed_config.cpp:124-177`): trim, match `^(\d+)(?:\.(\d+))?$`, then
either `{stol(int), 1}` or `{stol(int ++ frac), 10^k}` where `k` is the
number of fractional digits.  (`std::pow(10, k)` cast to `unsigned int` is
modelled as the exact power; the conversion is exact for every in-range
result.)  Splitting the trimmed character list on `'.'` yields exactly the
regex decomposition: one all-digit non-empty part, or two such parts. -/
def parse_manual_refresh_rate (s : String) : Option RefreshRate :=
  match (charTrim s.toList).splitOn '.' with
  | [a] =>
    if a ≠ [] ∧ a.all Char.isDigit then
      match stolDigits a with
      | some v => some ⟨v, 1⟩
      | none => none
    else none
  | [a, b] =>
    if a ≠ [] ∧ b ≠ [] ∧ a.all Char.isDigit ∧ b.all Char.isDigit then
      match stolDigits (a ++ b) with
      | some v => some ⟨v, 10 ^ b.length⟩
      | none => none
    else none
  | _ => none

/-- `parse_refresh_rate_option` (`parsed_config.cpp:110-184`): outer `none`
means the option failed to parse; inner `none` means "leave unchanged". -/
def parse_refresh_rate_option (config : VideoConfig) (session : LaunchSession) :
    Option (Option RefreshRate) :=
  match config.refresh_rate_change with
  | RefreshRateChange.automatic =>
    if session.fps ≥ 0 then some (some ⟨session.fps.toNat, 1⟩) else none
  | RefreshRateChange.manual =>
    match parse_manual_refresh_rate config.manual_refresh_rate with
    | some r => some (some r)
    | none => none
  | RefreshRateChange.no_operation => some none

/-- The `manual` arm of `parse_resolution_option`
(`parsed_config.cpp:52-85`): trim, match `^(\d+)x(\d+)$`, `stol` both
parts. -/
def parse_manual_resolution (s : String) : Option Resolution :=
  match (charTrim s.toList).splitOn 'x' with
  | [a, b] =>
    if a ≠ [] ∧ b ≠ [] ∧ a.all Char.isDigit ∧ b.all Char.isDigit then
      match stolDigits a, stolDigits b with
      | some wv, some hv => some ⟨wv, hv⟩
      | _, _ => none
    else none
  | _ => none

/-- `parse_resolution_option` (`parsed_config.cpp:31-92`). -/
def parse_resolution_option (config : VideoConfig) (session : LaunchSession) :
    Option (Option Resolution) :=
  match config.resolution_change with
  | ResolutionChange.automatic =>
    if !session.enable_sops then some none
    else if session.width ≥ 0 ∧ session.height ≥ 0 then
      some (some ⟨session.width.toNat, session.height.toNat⟩)
    else none
  | ResolutionChange.manual =>
    match parse_manual_resolution config.manual_resolution with
    | some r => some (some r)
    | none => none
  | ResolutionChange.no_operation => some none

/-- `parse_hdr_option` (`parsed_config.cpp:200-210`). -/
def parse_hdr_option (config : VideoConfig) (session : LaunchSession) : Option Bool :=
  match config.hdr_prep with
  | HdrPrep.automatic => some session.enable_hdr
  | HdrPrep.no_operation => none

/-- `make_parsed_config` (`parsed_config.cpp:261-279`). -/
def make_parsed_config (config : VideoConfig) (session : LaunchSession) :
    Option ParsedConfig :=
  let change_hdr_state := parse_hdr_option config session
  match parse_resolution_option config session with
  | none => none
  | some res =>
    match parse_refresh_rate_option config session with
    | none => none
    | some rr =>
      some ⟨config.output_name, config.display_device_prep, res, rr, change_hdr_state⟩

/-- Claim C6's description of manual refresh-rate parsing, written from the
spec's words: after trimming, the string must match
`^(\d+)(?:\.(\d+))?$`; with a `k`-digit fractional part the result is the
exact rational `{int_part * 10^k + frac_part, 10^k}`, without one it is
`{int_part, 1}`; overflow of the parsed number fails. -/
def manual_refresh_rate_claimC6 (s : String) : Option RefreshRate :=
  match (charTrim s.toList).splitOn '.' with
  | [a] =>
    if a ≠ [] ∧ a.all Char.isDigit then
      if digitsVal a ≤ LONG_MAX_32 then some ⟨digitsVal a, 1⟩ else none
    else none
  | [a, b] =>
    if a ≠ [] ∧ b ≠ [] ∧ a.all Char.isDigit ∧ b.all Char.isDigit then
      if digitsVal a * 10 ^ b.length + digitsVal b ≤ LONG_MAX_32 then
        some ⟨digitsVal a * 10 ^ b.length + digitsVal b, 10 ^ b.length⟩
      else none
    else none
  | _ => none

/-! ## Topology handling (`settings_topology.cpp:211-291`) -/

structure TopologyMetadata where
  current_topology : ActiveTopology
  newly_enabled_devices : List String
  primary_device_requested : Bool
  duplicated_devices : List String
deriving DecidableEq, Repr

/-- `handled_topology_data_t` (`settings_topology.h:19-22`): the journal
topology data consumed by the applicator plus the metadata.  The return
statement in the source (`settings_topology.cpp:277-290`) also constructs a
transient `topology_data_t { *current_topology, final_topology }` — the
"temporary" item of the header's doc comment, for which the declared struct
has no field; the `topology_data` field consumed by `settings.cpp` is the
item built from `determine_initial_topology_based_on_prev_config`, the one
the header doc describes as going "back to the very first topology". -/
structure HandledTopologyData where
  topology_data : TopologyPair
  metadata : TopologyMetadata
deriving DecidableEq, Repr

/-- `find_one_of_the_available_devices` (`settings_topology.cpp:13-31`):
empty result means failure. -/
def find_one_of_the_available_devices (a : Adapter) (device_id : String) : String :=
  if a.devices.isEmpty then ""
  else
    match a.devices.find? (fun p =>
      if device_id.isEmpty then p.2 == DeviceState.primary else p.1 == device_id) with
    | some p => p.1
    | none => ""

/-- `get_and_validate_current_topology` (`settings_topology.cpp:33-42`). -/
def get_and_validate_current_topology (a : Adapter) (w : World) :
    Option ActiveTopology × World :=
  let (t, w) := readTopology a w
  if !is_topology_valid t then (none, w) else (some t, w)

structure HandlerOut where
  result : Option HandledTopologyData
  state : SettingsState
  reverting_failed : Bool
  world : World
deriving DecidableEq, Repr

/-- The journal-reconciliation prefix of `handle_device_topology_configuration`
(`settings_topology.cpp:232-257`): when a previous journal exists and its
modified topology differs from the computed final topology, invoke the
injected revert (whose success/failure is captured by the caller's lambda
into `failed_while_reverting`, but — the `.cpp` takes the callback as
`std::function<void()>` — is otherwise ignored by the handler), clear the
journal reference, re-read and re-validate the current topology, and
recompute the duplicate list and final topology.  Returns the surviving
previous-journal reference, the current topology (`none` = abort), the
duplicate list, the final topology, the settings state, the
`failed_while_reverting` flag and the world. -/
structure ReconcileOut where
  prev2 : Option TopologyPair
  cur : Option ActiveTopology
  dup : List String
  fin : ActiveTopology
  state : SettingsState
  reverting_failed : Bool
  world : World
deriving DecidableEq, Repr

def handler_reconcile (a : Adapter) (w : World) (s : SettingsState)
    (config : ParsedConfig) (previously_configured_topology : Option TopologyPair)
    (requested_device_id : String) (primary_device_requested : Bool)
    (t0 : ActiveTopology) : ReconcileOut :=
  let dup0 := get_duplicate_devices requested_device_id t0
  let fin0 := determine_final_topology config.device_prep primary_device_requested dup0 t0
  match previously_configured_topology with
  | some p =>
    if !is_topology_the_same p.modified fin0 then
      let r := revert_settings a w s
      let failed := !r.ok
      match get_and_validate_current_topology a r.world with
      | (none, w) => ⟨none, none, dup0, fin0, r.state, failed, w⟩
      | (some t1, w) =>
        ⟨none, some t1,
          get_duplicate_devices requested_device_id t1,
          determine_final_topology config.device_prep primary_device_requested
            (get_duplicate_devices requested_device_id t1) t1,
          r.state, failed, w⟩
    else ⟨some p, some t0, dup0, fin0, s, false, w⟩
  | none => ⟨none, some t0, dup0, fin0, s, false, w⟩

/-- The tail of `handle_device_topology_configuration`
(`settings_topology.cpp:270-291`): the device must appear in the final
topology, and the returned journal topology data pairs the
`determine_initial_topology_based_on_prev_config` result with the final
topology. -/
def handler_finish (requested_device_id : String) (primary_device_requested : Bool)
    (prev2 : Option TopologyPair) (cur : ActiveTopology) (dup : List String)
    (fin : ActiveTopology) (s : SettingsState) (failed : Bool) (w : World) : HandlerOut :=
  if !is_device_found_in_active_topology requested_device_id fin then ⟨none, s, failed, w⟩
  else
    ⟨some ⟨⟨determine_initial_topology_based_on_prev_config prev2 cur, fin⟩,
        ⟨fin, get_newly_enabled_devices_from_topology cur fin, primary_device_requested, dup⟩⟩,
      s, failed, w⟩

/-- `handle_device_topology_configuration` (`settings_topology.cpp:211-291`). -/
def handle_device_topology_configuration (a : Adapter) (w : World) (s : SettingsState)
    (config : ParsedConfig) (previously_configured_topology : Option TopologyPair) :
    HandlerOut :=
  let primary_device_requested := config.device_id.isEmpty
  let requested_device_id := find_one_of_the_available_devices a config.device_id
  if requested_device_id.isEmpty then ⟨none, s, false, w⟩
  else
    match get_and_validate_current_topology a w with
    | (none, w) => ⟨none, s, false, w⟩
    | (some t0, w) =>
      match handler_reconcile a w s config previously_configured_topology
          requested_device_id primary_device_requested t0 with
      | ⟨_, none, _, _, s, failed, w⟩ => ⟨none, s, failed, w⟩
      | ⟨prev2, some cur, dup, fin, s, failed, w⟩ =>
        if !is_topology_the_same cur fin then
          let (ok, w) := doSetCall a w (AdapterCall.setTopology fin)
          if !ok then ⟨none, s, failed, w⟩
          else
            handler_finish requested_device_id primary_device_requested prev2 cur
              (get_duplicate_devices requested_device_id fin) fin s failed w
        else handler_finish requested_device_id primary_device_requested prev2 cur dup fin s failed w

/-! ## The settings applicator stages (`settings.cpp:23-242, 472-553`) -/

/-- `get_original_value` (`settings.cpp:23-27`), for strings. -/
def get_original_value_str (current_value previous_value : String) : String :=
  if previous_value.isEmpty then current_value else previous_value

/-- `get_original_value` (`settings.cpp:23-27`), for maps. -/
def get_original_value_map {α : Type} (current_value previous_value : List (String × α)) :
    List (String × α) :=
  if previous_value.isEmpty then current_value else previous_value

/-- `get_current_primary_display` (`settings.cpp:29-40`): first device of
the metadata topology (scanned group by group) for which
`is_primary_device` holds. -/
def get_current_primary_display (a : Adapter) (metadata : TopologyMetadata) : String :=
  match (metadata.current_topology.foldr (· ++ ·) []).find? (fun id => a.primaryQ id) with
  | some id => id
  | none => ""

/-- `determine_new_primary_display` (`settings.cpp:42-54`). -/
def determine_new_primary_display (original_primary_display : String)
    (metadata : TopologyMetadata) : String :=
  if metadata.primary_device_requested then original_primary_display
  else metadata.duplicated_devices.headD ""

/-- `handle_primary_display_configuration` (`settings.cpp:56-80`): `none`
means failure; a returned string is the value journaled as the original
primary display. -/
def handle_primary_display_configuration (a : Adapter) (w : World)
    (device_prep : DevicePrep) (previous_primary_display : String)
    (metadata : TopologyMetadata) : Option String × World :=
  if device_prep = DevicePrep.ensure_primary then
    let original := get_original_value_str (get_current_primary_display a metadata)
      previous_primary_display
    let new_primary := determine_new_primary_display original metadata
    let (ok, w) := doSetCall a w (AdapterCall.setAsPrimary new_primary)
    if ok then (some original, w) else (none, w)
  else
    if !previous_primary_display.isEmpty then
      let (ok, w) := doSetCall a w (AdapterCall.setAsPrimary previous_primary_display)
      if ok then (some "", w) else (none, w)
    else (some "", w)

/-- `determine_new_display_modes` (`settings.cpp:82-110`).
`new_modes[device_id]` inserts a value-initialized mode when absent. -/
def determine_new_display_modes (resolution : Option Resolution)
    (refresh_rate : Option RefreshRate) (original_display_modes : DeviceModeMap)
    (metadata : TopologyMetadata) : DeviceModeMap :=
  let m1 := match resolution with
    | some r => metadata.duplicated_devices.foldl
        (fun m id => mapInsert id { (mapFind? m id).getD DisplayMode.zero with resolution := r } m)
        original_display_modes
    | none => original_display_modes
  match refresh_rate with
  | some rr =>
    if metadata.primary_device_requested then
      metadata.duplicated_devices.foldl
        (fun m id => mapInsert id { (mapFind? m id).getD DisplayMode.zero with refresh_rate := rr } m)
        m1
    else
      let id := metadata.duplicated_devices.headD ""
      mapInsert id { (mapFind? m1 id).getD DisplayMode.zero with refresh_rate := rr } m1
  | none => m1

/-- `handle_display_mode_configuration` (`settings.cpp:112-136`). -/
def handle_display_mode_configuration (a : Adapter) (w : World)
    (resolution : Option Resolution) (refresh_rate : Option RefreshRate)
    (previous_display_modes : DeviceModeMap) (metadata : TopologyMetadata) :
    Option DeviceModeMap × World :=
  if resolution.isSome || refresh_rate.isSome then
    let (cur, w) := readModes a w (get_device_ids_from_topology metadata.current_topology)
    let original := get_original_value_map cur previous_display_modes
    let new_modes := determine_new_display_modes resolution refresh_rate original metadata
    let (ok, w) := doSetCall a w (AdapterCall.setDisplayModes new_modes)
    if ok then (some original, w) else (none, w)
  else if !previous_display_modes.isEmpty then
    let (ok, w) := doSetCall a w (AdapterCall.setDisplayModes previous_display_modes)
    if ok then (some ([] : DeviceModeMap), w) else (none, w)
  else (some ([] : DeviceModeMap), w)

/-- The `try_update_new_state` lambda of `determine_new_hdr_states`
(`settings.cpp:191-198`): `new_states[device_id]` inserts `unknown` when
the key is absent; an `unknown` current state is left untouched, any other
state is overwritten with the end state. -/
def try_update_new_state (end_state : HdrState) (m : HdrStateMap) (id : String) :
    HdrStateMap :=
  let current := (mapFind? m id).getD HdrState.unknown
  let m := if (mapFind? m id).isSome then m else mapInsert id HdrState.unknown m
  if current = HdrState.unknown then m else mapInsert id end_state m

/-- `determine_new_hdr_states` (`settings.cpp:185-216`). -/
def determine_new_hdr_states (change_hdr_state : Option Bool)
    (original_hdr_states : HdrStateMap) (metadata : TopologyMetadata) : HdrStateMap :=
  match change_hdr_state with
  | none => original_hdr_states
  | some b =>
    let end_state := if b then HdrState.enabled else HdrState.disabled
    if metadata.primary_device_requested then
      metadata.duplicated_devices.foldl (try_update_new_state end_state) original_hdr_states
    else
      try_update_new_state end_state original_hdr_states (metadata.duplicated_devices.headD "")

/-- `handle_hdr_state_configuration` (`settings.cpp:218-242`); short-circuit
order: a failing blank pulse prevents the `set_hdr_states` call. -/
def handle_hdr_state_configuration (a : Adapter) (w : World)
    (change_hdr_state : Option Bool) (previous_hdr_states : HdrStateMap)
    (metadata : TopologyMetadata) : Option HdrStateMap × World :=
  match change_hdr_state with
  | some _ =>
    let (cur, w) := readHdr a w (get_device_ids_from_topology metadata.current_topology)
    let original := get_original_value_map cur previous_hdr_states
    let new_states := determine_new_hdr_states change_hdr_state original metadata
    let (ok1, w) := blank_hdr_states a w new_states metadata.newly_enabled_devices
    if !ok1 then (none, w)
    else
      let (ok2, w) := doSetCall a w (AdapterCall.setHdrStates new_states)
      if ok2 then (some original, w) else (none, w)
  | none =>
    if !previous_hdr_states.isEmpty then
      let (ok1, w) := blank_hdr_states a w previous_hdr_states metadata.newly_enabled_devices
      if !ok1 then (none, w)
      else
        let (ok2, w) := doSetCall a w (AdapterCall.setHdrStates previous_hdr_states)
        if ok2 then (some ([] : HdrStateMap), w) else (none, w)
    else (some ([] : HdrStateMap), w)

/-! ## The applicator body (`settings.cpp:472-553`) -/

structure StagesOut where
  stage_fail : Option ApplyResult
  cur : PersistentData
  world : World
deriving DecidableEq, Repr

/-- The primary → modes → HDR stage sequence of `apply_config`
(`settings.cpp:530-549`), threading the merged `current_settings` and
stopping at the first failing stage. -/
def run_stages (a : Adapter) (w : World) (config : ParsedConfig) (cur : PersistentData)
    (metadata : TopologyMetadata) : StagesOut :=
  match handle_primary_display_configuration a w config.device_prep
      cur.original_primary_display metadata with
  | (none, w) => ⟨some ApplyResult.primary_display_fail, cur, w⟩
  | (some op, w) =>
    let cur := { cur with original_primary_display := op }
    match handle_display_mode_configuration a w config.resolution config.refresh_rate
        cur.original_modes metadata with
    | (none, w) => ⟨some ApplyResult.modes_fail, cur, w⟩
    | (some om, w) =>
      let cur := { cur with original_modes := om }
      match handle_hdr_state_configuration a w config.change_hdr_state
          cur.original_hdr_states metadata with
      | (none, w) => ⟨some ApplyResult.hdr_states_fail, cur, w⟩
      | (some oh, w) => ⟨none, { cur with original_hdr_states := oh }, w⟩

structure PersistOut where
  result : ApplyResult
  state : SettingsState
  world : World
deriving DecidableEq, Repr

/-- The `persist_settings` lambda of `apply_config` (`settings.cpp:507-525`):
with modifications present, cache and save the journal (save failure =
`file_save_fail`); without modifications but with cached data, delete the
journal through a full revert. -/
def persist_settings (a : Adapter) (s : SettingsState) (cur : PersistentData) (w : World) :
    PersistOut :=
  if contains_modifications cur then
    let s := { s with persistent_data := some cur }
    if a.saveOk then ⟨ApplyResult.success, { s with fileData := some cur }, w⟩
    else ⟨ApplyResult.file_save_fail, s, w⟩
  else
    match s.persistent_data with
    | some _ =>
      let r := revert_settings a w s
      if !r.ok then ⟨ApplyResult.revert_fail, r.state, r.world⟩
      else ⟨ApplyResult.success, r.state, r.world⟩
    | none => ⟨ApplyResult.success, s, w⟩

/-- `current_settings` aliases `*persistent_data` when a journal is cached
(`settings.cpp:505`); mutations through the alias are reflected before the
persistence step runs. -/
def sync_mem (s : SettingsState) (cur : PersistentData) : SettingsState :=
  if s.persistent_data.isSome then { s with persistent_data := some cur } else s

structure ApplyOut where
  result : ApplyResult
  state : SettingsState
  world : World
deriving DecidableEq, Repr

/-- Everything `apply_config` does after topology handling succeeded
(`settings.cpp:504-553`): run the stages over the merged settings, then —
on the success path explicitly, on every failure path through the
`save_guard` scope guard (whose persistence result is ignored) — run the
persistence step. -/
def apply_stages_and_persist (a : Adapter) (w : World) (s : SettingsState)
    (config : ParsedConfig) (tr : HandledTopologyData) : ApplyOut :=
  let new_settings : PersistentData := ⟨tr.topology_data, "", [], []⟩
  let cur0 := s.persistent_data.getD new_settings
  let so := run_stages a w config cur0 tr.metadata
  let s2 := sync_mem s so.cur
  let p := persist_settings a s2 so.cur so.world
  match so.stage_fail with
  | some code => ⟨code, p.state, p.world⟩
  | none => ⟨p.result, p.state, p.world⟩

/-- `settings_t::apply_config(parsed_config_t)` (`settings.cpp:472-553`).
The revert injected into topology handling is `revert_settings` itself;
`failed_while_reverting` is consulted only when topology handling fails. -/
def apply_config_parsed (a : Adapter) (w : World) (s : SettingsState)
    (config : ParsedConfig) : ApplyOut :=
  let prev := s.persistent_data.map PersistentData.topology
  let h := handle_device_topology_configuration a w s config prev
  match h.result with
  | none =>
    ⟨if h.reverting_failed then ApplyResult.revert_fail else ApplyResult.topology_fail,
      h.state, h.world⟩
  | some tr => apply_stages_and_persist a h.world h.state config tr

/-- `settings_t::apply_config(video_t, launch_session_t)`
(`settings.cpp:395-424`); the audio-sink capture does not interact with the
journal, the adapter, or the returned result and is not modelled. -/
def apply_config_top (a : Adapter) (w : World) (s : SettingsState)
    (config : VideoConfig) (session : LaunchSession) : ApplyOut :=
  match make_parsed_config config session with
  | none => ⟨ApplyResult.config_parse_fail, s, w⟩
  | some pc => apply_config_parsed a w s pc

/-! ## Display-mode setting (`src/platform/windows/display_device/device_modes.cpp`)

`set_display_modes` performs its own Windows CCD calls through
`do_set_modes` and re-reads the applied modes; here `do_set_modes` attempt
outcomes and the successive `get_current_display_modes` query results are
prescribed by a `ModesEnv` oracle (`reads 0` is the pre-apply snapshot,
`reads 1` / `reads 2` the read-backs after the first and second attempt),
and every `do_set_modes` invocation is logged. -/

/-- Fuel-bounded floor of the base-2 logarithm (structural recursion so
that concrete values reduce in the kernel; the fuel only has to exceed the
bit length of the argument). -/
def natLog2F : Nat → Nat → Nat
  | 0, _ => 0
  | fuel + 1, n => if n ≥ 2 then natLog2F fuel (n / 2) + 1 else 0

/-- Round the rational `num / den` (`den ≥ 1`) to the nearest IEEE-754
binary32 value, ties to even, returned as an exact rational.  For the
magnitude `n / den`: `e` is `⌊log2 (n/den)⌋` (computed on a `2^300`-scaled
copy so the scaled quotient is a positive integer), and `m` is the 24-bit
significand `n/den · 2^(23-e)` rounded half-to-even (rounding to nearest
is sign-symmetric).  Correct for quotients in the normal binary32 range,
which covers every nonzero value arising here: `u32` conversions,
quotients of such conversions, and differences of such quotients (all of
magnitude between `2^-64` and `2^32`, with numerators and denominators far
below `2^300`). -/
def roundF32Pair (num : Int) (den : Nat) : ℚ :=
  if num = 0 then 0
  else
    let n : Nat := num.natAbs
    let e : Int := (natLog2F 600 (n * 2 ^ 300 / den) : Int) - 300
    let s : Int := 23 - e
    let p : Nat := n * 2 ^ s.toNat
    let q : Nat := den * 2 ^ (-s).toNat
    let t : Nat := p / q
    let r : Nat := p % q
    let m : Nat := t + (if 2 * r > q then 1 else if 2 * r < q then 0 else t % 2)
    let mag : ℚ :=
      if e ≥ 23 then ((m * 2 ^ (e - 23).toNat : Nat) : ℚ)
      else mkRat (m : Int) (2 ^ (23 - e).toNat)
    if num < 0 then -mag else mag

/-- `static_cast<float>` of an `unsigned int` operand. -/
def float32_of_u32 (n : Nat) : ℚ := roundF32Pair (n : Int) 1

/-- binary32 division of two binary32 values (given as exact rationals):
the exact quotient, correctly rounded. -/
def float32_div (a b : ℚ) : ℚ :=
  let n : Int := a.num * (b.den : Int)
  let d : Int := (a.den : Int) * b.num
  if d < 0 then roundF32Pair (-n) (-d).toNat else roundF32Pair n d.toNat

/-- binary32 subtraction of two binary32 values (given as exact
rationals): the exact difference, correctly rounded. -/
def float32_sub (a b : ℚ) : ℚ :=
  roundF32Pair (a.num * (b.den : Int) - b.num * (a.den : Int)) (a.den * b.den)

/-- `fuzzy_compare_refresh_rates` (`device_modes.cpp:9-18`) with
`max_diff = 1`: both denominators positive, and
`std::abs(r1_f - r2_f) <= max_diff` where `r1_f` and `r2_f` are
`static_cast<float>(numerator) / denominator`.  As in the source, the
arithmetic is IEEE-754 binary32: each `unsigned int` operand is converted
to `float` (rounded), the division is a `float` division (rounded), and so
is the subtraction; `std::abs` and the comparison against `1.0f` are
exact. -/
def fuzzy_compare_refresh_rates (r1 r2 : RefreshRate) : Bool :=
  if r1.denominator > 0 && r2.denominator > 0 then
    decide (|float32_sub
        (float32_div (float32_of_u32 r1.numerator) (float32_of_u32 r1.denominator))
        (float32_div (float32_of_u32 r2.numerator) (float32_of_u32 r2.denominator))| ≤ 1)
  else false

/-- `fuzzy_compare_modes` (`device_modes.cpp:20-25`): exact resolution
equality plus fuzzy refresh-rate equality. -/
def fuzzy_compare_modes (a b : DisplayMode) : Bool :=
  a.resolution.width == b.resolution.width &&
  a.resolution.height == b.resolution.height &&
  fuzzy_compare_refresh_rates a.refresh_rate b.refresh_rate

/-- The `all_modes_match` lambda of `set_display_modes`
(`device_modes.cpp:256-270`): every requested device must be present in the
read-back map with a fuzzy-matching mode. -/
def all_modes_match (modes current_modes : DeviceModeMap) : Bool :=
  modes.all (fun p =>
    match mapFind? current_modes p.1 with
    | none => false
    | some m => fuzzy_compare_modes m p.2)

structure ModesEnv where
  all_duplicated : List String
  reads : Nat → DeviceModeMap
  set_results : Nat → Bool

inductive ModesCall where
  | doSet (modes : DeviceModeMap) (allow_changes : Bool)
deriving DecidableEq, Repr

structure ModesOut where
  ok : Bool
  calls : List ModesCall
deriving DecidableEq, Repr

/-- `set_display_modes` (`device_modes.cpp:204-304`).  The validation
prefix: non-empty input, no duplicate device id, a non-empty
`get_all_duplicated_devices` result of the same size as the input id set,
and a non-empty pre-apply snapshot.  Then: first `do_set_modes` with
`SDC_ALLOW_CHANGES`; verify the read-back fuzzily; on a non-empty
read-back that fails verification retry strictly (without the flag) and
verify again; any remaining failure path restores the pre-apply snapshot
(result ignored) and reports failure. -/
def set_display_modes_impl (e : ModesEnv) (modes : DeviceModeMap) : ModesOut :=
  if modes.isEmpty then ⟨false, []⟩
  else if !(modes.map Prod.fst).Nodup then ⟨false, []⟩
  else if e.all_duplicated.isEmpty then ⟨false, []⟩
  else if e.all_duplicated.length ≠ (modes.map Prod.fst).length then ⟨false, []⟩
  else
    let original_modes := e.reads 0
    if original_modes.isEmpty then ⟨false, []⟩
    else
      let calls := [ModesCall.doSet modes true]
      if !e.set_results 0 then ⟨false, calls⟩
      else
        let current1 := e.reads 1
        if !current1.isEmpty && all_modes_match modes current1 then ⟨true, calls⟩
        else
          if !current1.isEmpty then
            let calls := calls ++ [ModesCall.doSet modes false]
            if e.set_results 1 then
              let current2 := e.reads 2
              if !current2.isEmpty && all_modes_match modes current2 then ⟨true, calls⟩
              else ⟨false, calls ++ [ModesCall.doSet original_modes true]⟩
            else ⟨false, calls ++ [ModesCall.doSet original_modes true]⟩
          else ⟨false, calls ++ [ModesCall.doSet original_modes true]⟩

/-- The validation prefix of `set_display_modes` succeeding
(`device_modes.cpp:206-248`). -/
def modes_validation_ok (e : ModesEnv) (modes : DeviceModeMap) : Prop :=
  modes ≠ [] ∧ (modes.map Prod.fst).Nodup ∧ e.all_duplicated ≠ [] ∧
  e.all_duplicated.length = (modes.map Prod.fst).length ∧ e.reads 0 ≠ []

def adapter0 : Adapter :=
  ⟨[], fun _ => [], fun _ => [], fun _ => [], fun _ => false, fun _ => true, true⟩

def state0 : SettingsState := ⟨none, none⟩

/-- A video config whose manual refresh-rate string fails the regex. -/
def cfgC6bad : VideoConfig :=
  ⟨"", DevicePrep.no_operation, ResolutionChange.no_operation, "",
    RefreshRateChange.manual, "5x", HdrPrep.no_operation⟩

def sess0 : LaunchSession := ⟨true, 1920, 1080, 60, false⟩

/-- Concrete inputs for the C9 witness: an all-no-op parsed config over an
already-journaled (but modification-free) state. -/
def curW9 : PersistentData := ⟨⟨[["A"]], [["A"]]⟩, "", [], []⟩

def trW9 : HandledTopologyData := ⟨⟨[["A"]], [["A"]]⟩, ⟨[["A"]], [], true, ["A"]⟩⟩

def cfgW9 : ParsedConfig := ⟨"", DevicePrep.no_operation, none, none, none⟩

def sW9 : SettingsState := ⟨some curW9, some curW9⟩

/-- Adapter for the C5 witness run: one primary device `A`, current
topology `[[A]]`. -/
def aW5 : Adapter :=
  ⟨[("A", DeviceState.primary)], fun _ => [["A"]], fun _ => [], fun _ => [],
    fun _ => false, fun _ => true, true⟩

def cfgW5 : ParsedConfig := ⟨"", DevicePrep.no_operation, none, none, none⟩

/-- Previous journal: modified topology equals the current one, initial
differs. -/
def prevW5 : Option TopologyPair := some ⟨[["B"]], [["A"]]⟩

def rW5 : HandledTopologyData := ⟨⟨[["B"]], [["A"]]⟩, ⟨[["A"]], [], true, ["A"]⟩⟩

/-- Adapter for the C10 witness run: the requested device `B` is inactive
and absent from the current topology `[[A]]`; activating it succeeds. -/
def aW10 : Adapter :=
  ⟨[("A", DeviceState.primary), ("B", DeviceState.inactive)], fun _ => [["A"]],
    fun _ => [], fun _ => [], fun _ => false, fun _ => true, true⟩

def cfgW10 : ParsedConfig := ⟨"B", DevicePrep.ensure_active, none, none, none⟩

def rW10 : HandledTopologyData :=
  ⟨⟨[["A"]], [["A"], ["B"]]⟩, ⟨[["A"], ["B"]], ["B"], false, ["B"]⟩⟩

def modeOld : DisplayMode := ⟨⟨1280, 720⟩, ⟨60, 1⟩⟩

/-- Modes environment for the C7 witness run: one device `A`, pre-apply
snapshot `modeOld`, every set attempt succeeding. -/
def eW7 : ModesEnv :=
  ⟨["A"], fun n => if n = 0 then [("A", modeOld)] else [("A", modeA)], fun _ => true⟩

def mW7 : DeviceModeMap := [("A", modeA)]

/-! ## Lemmas and claim theorems -/

/-! ### Structure of `get_duplicate_devices` results -/

lemma foldl_append_out {α β : Type} (l : List β) (h : β → List α) (acc : List α) :
    l.foldl (fun a g => a ++ h g) acc = acc ++ l.foldl (fun a g => a ++ h g) [] := by
  induction l generalizing acc with
  | nil => simp
  | cons g gs ih =>
    simp only [List.foldl_cons]
    rw [ih (acc ++ h g), List.nil_append, ih (h g), List.append_assoc]

lemma get_duplicate_devices_cons (device : String) (t : ActiveTopology) :
    ∃ rest, get_duplicate_devices device t = device :: rest := by
  unfold get_duplicate_devices
  have hstep :
      (fun (acc : List String) (g : List String) =>
        if g.any (fun d => d == device) then acc ++ g.filter (fun d => !(d == device))
        else acc) =
      (fun acc g =>
        acc ++ (if g.any (fun d => d == device) then g.filter (fun d => !(d == device))
          else [])) := by
    funext acc g
    by_cases hg : g.any (fun d => d == device) <;> simp [hg]
  rw [hstep, foldl_append_out]
  exact ⟨_, rfl⟩

lemma get_duplicate_devices_headD (device : String) (t : ActiveTopology) :
    (get_duplicate_devices device t).headD "" = device := by
  obtain ⟨rest, h⟩ := get_duplicate_devices_cons device t
  rw [h]
  rfl

/-- Claim C4, counterexample: with the primary display requested implicitly
and the current topology being the single mirror group `[[A, B]]`,
`determine_final_topology` keeps the current topology (the code's
`ensure_only_display` branch only shrinks the topology when more than one
group exists once primary was requested), whereas the claim's literal rule
chain — "otherwise `[[device]]` if the device is ... duplicated ..." —
produces `[[A]]`. -/
theorem C4_counterexample :
    determine_final_topology DevicePrep.ensure_only_display true
        (get_duplicate_devices "A" [["A", "B"]]) [["A", "B"]] = [["A", "B"]] ∧
    final_topology_only_display_claimC4 true "A"
        (get_duplicate_devices "A" [["A", "B"]]) [["A", "B"]] = [["A"]] ∧
    determine_final_topology DevicePrep.ensure_only_display true
        (get_duplicate_devices "A" [["A", "B"]]) [["A", "B"]] ≠
      final_topology_only_display_claimC4 true "A"
        (get_duplicate_devices "A" [["A", "B"]]) [["A", "B"]] := by
  refine ⟨by decide, by decide, by decide⟩

/-- Claim C4 (amended): for every current topology and resolved target
device (with its mirror siblings computed by `get_duplicate_devices`), the
`ensure_only_display` plan is: `[[duplicated_devices]]` when the primary
display was requested and more than one group exists, the current topology
when the primary display was requested and at most one group exists, and —
only when a device was explicitly requested — `[[device]]` exactly when the
device is inactive, duplicated, or other groups exist, otherwise the
current topology unchanged. -/
theorem C4_ensure_only_display_final_topology (primary : Bool) (device : String)
    (current : ActiveTopology) :
    determine_final_topology DevicePrep.ensure_only_display primary
        (get_duplicate_devices device current) current =
      final_topology_only_display_amendedC4 primary device
        (get_duplicate_devices device current) current := by
  have hh := get_duplicate_devices_headD device current
  simp only [determine_final_topology, final_topology_only_display_amendedC4, hh]
  cases primary with
  | true => simp
  | false =>
    simp only [Bool.false_eq_true, if_false]
    split_ifs <;> tauto

/-- Claim C1: on a partially failing revert, `revert_settings` does return
failure, and the in-memory journal is partially cleared (the HDR originals
whose restore succeeded are gone) — but the journal file is NOT re-saved
with that partially-cleared data: `try_revert_settings` never assigns its
`data_modified` out-parameter, so the guard `if (data_updated)` in
`revert_settings` (settings.cpp:438) is never taken and the on-disk journal
still holds the stale originals. -/
theorem C1_no_resave_of_partially_cleared_journal :
    (revert_settings adapterC1 World.init ⟨some dataC1, some dataC1⟩).ok = false ∧
    (revert_settings adapterC1 World.init ⟨some dataC1, some dataC1⟩).state.persistent_data =
      some dataC1_partial ∧
    (revert_settings adapterC1 World.init ⟨some dataC1, some dataC1⟩).state.fileData =
      some dataC1 ∧
    dataC1_partial ≠ dataC1 := by
  refine ⟨by decide, by decide, by decide, by decide⟩

/-- Claim C3: the display-mode restoration is attempted twice — the source
duplicates the whole restore block verbatim (`settings.cpp:280-288` and
`290-298`) — so with a first-attempt failure and second-attempt success the
adapter sees two `set_display_modes` calls, the journal field ends up
cleared, and the revert is nevertheless reported as (partially) failed. -/
theorem C3_modes_restore_attempted_twice :
    (try_revert_settings adapterC3 World.init dataC3 false).world.calls =
      [AdapterCall.setTopology [["A"]],
        AdapterCall.setDisplayModes [("A", modeA)],
        AdapterCall.setDisplayModes [("A", modeA)],
        AdapterCall.setTopology [["A"]]] ∧
    (try_revert_settings adapterC3 World.init dataC3 false).world.calls.count
      (AdapterCall.setDisplayModes [("A", modeA)]) = 2 ∧
    (try_revert_settings adapterC3 World.init dataC3 false).data.original_modes = [] ∧
    (try_revert_settings adapterC3 World.init dataC3 false).ok = false := by
  refine ⟨by decide, by decide, by decide, by decide⟩

lemma Resolution.eq_of {a b : Resolution} (h1 : a.width = b.width)
    (h2 : a.height = b.height) : a = b := by
  cases a
  cases b
  simp_all

/-- Claim C2: the result enumeration declared in `settings.h` inserts
`validation_fail = 701` between `config_parse_fail` and `topology_fail`,
so every stage code from `topology_fail` on is shifted by one against the
claimed contract (`topology_fail` is 702, not 701, ..., `file_save_fail` is
706, not 705), and no `revert_fail` enumerator exists at all even though
`settings.cpp` returns `result_e::revert_fail`. -/
theorem C2_result_codes_do_not_match_claim :
    result_code ResultE.success = 0 ∧
    result_code ResultE.config_parse_fail = 700 ∧
    result_code ResultE.validation_fail = 701 ∧
    result_code ResultE.topology_fail = 702 ∧
    result_code ResultE.primary_display_fail = 703 ∧
    result_code ResultE.modes_fail = 704 ∧
    result_code ResultE.hdr_states_fail = 705 ∧
    result_code ResultE.file_save_fail = 706 ∧
    result_code ResultE.topology_fail ≠ 701 ∧
    result_code ResultE.primary_display_fail ≠ 702 ∧
    result_code ResultE.modes_fail ≠ 703 ∧
    result_code ResultE.hdr_states_fail ≠ 704 ∧
    result_code ResultE.file_save_fail ≠ 705 := by
  decide

set_option maxRecDepth 40000 in
/-- Claim C8, counterexample: the claimed exact-rational 1.0 Hz window is
false of the program's binary32 comparison in both directions near the
boundary.  `{61000001, 1000000}` vs `{60, 1}` is accepted by the code —
`61000001` rounds to the float `61000000`, the quotients are exactly
`61.0f` and `60.0f`, and their difference is exactly `1.0f` — although the
exact quotients are 1.000001 Hz apart; `{64000005, 1000000}` vs
`{63000005, 1000000}` is rejected by the code — the rounded quotients are
`8388609/2^17` and `16515073/2^18`, whose exact difference `262145/262144`
exceeds 1 — although the exact quotients are exactly 1.0 Hz apart. -/
theorem C8_exact_rational_window_counterexample :
    fuzzy_compare_refresh_rates ⟨61000001, 1000000⟩ ⟨60, 1⟩ = true ∧
    ¬(|(61000001 : ℚ) / (1000000 : ℚ) - (60 : ℚ) / (1 : ℚ)| ≤ 1) ∧
    fuzzy_compare_refresh_rates ⟨64000005, 1000000⟩ ⟨63000005, 1000000⟩ = false ∧
    |(64000005 : ℚ) / (1000000 : ℚ) - (63000005 : ℚ) / (1000000 : ℚ)| ≤ 1 := by
  have habs : |(61000001 : ℚ) / (1000000 : ℚ) - (60 : ℚ) / (1 : ℚ)| =
      1000001 / 1000000 := by
    rw [show (61000001 : ℚ) / (1000000 : ℚ) - (60 : ℚ) / (1 : ℚ) =
      1000001 / 1000000 from by norm_num]
    rw [abs_of_pos (by norm_num)]
  refine ⟨by decide, ?_, by decide, by norm_num⟩
  rw [habs]
  norm_num

/-- Claim C8 (amended): two refresh rates are fuzzy-equal exactly when
both denominators are nonzero and the quotients, computed in IEEE-754
binary32 arithmetic as the source does (`float(num) / float(den)`, with the
difference also taken in `float`), differ in magnitude by at most 1.0 Hz;
and the `set_display_modes` verification predicate accepts the read-back
map exactly when every requested device appears in it with the exact
requested resolution and a fuzzy-equal refresh rate. -/
theorem C8_fuzzy_verification_semantics_float32 :
    (∀ r1 r2 : RefreshRate,
      fuzzy_compare_refresh_rates r1 r2 = true ↔
        r1.denominator ≠ 0 ∧ r2.denominator ≠ 0 ∧
          |float32_sub
              (float32_div (float32_of_u32 r1.numerator) (float32_of_u32 r1.denominator))
              (float32_div (float32_of_u32 r2.numerator) (float32_of_u32 r2.denominator))| ≤
            1) ∧
    (∀ modes current_modes : DeviceModeMap,
      all_modes_match modes current_modes = true ↔
        ∀ p ∈ modes, ∃ m, mapFind? current_modes p.1 = some m ∧
          m.resolution = p.2.resolution ∧
          fuzzy_compare_refresh_rates m.refresh_rate p.2.refresh_rate = true) := by
  constructor
  · intro r1 r2
    by_cases h1 : r1.denominator = 0
    · simp [fuzzy_compare_refresh_rates, h1]
    · by_cases h2 : r2.denominator = 0
      · simp [fuzzy_compare_refresh_rates, h1, h2]
      · have p1 := Nat.pos_of_ne_zero h1
        have p2 := Nat.pos_of_ne_zero h2
        simp [fuzzy_compare_refresh_rates, p1, p2, h1, h2]
  · intro modes current_modes
    unfold all_modes_match
    rw [List.all_eq_true]
    constructor
    · intro h p hp
      have hv := h p hp
      cases hm : mapFind? current_modes p.1 with
      | none => rw [hm] at hv; simp at hv
      | some m =>
        rw [hm] at hv
        simp only [fuzzy_compare_modes, Bool.and_eq_true, beq_iff_eq] at hv
        exact ⟨m, rfl, Resolution.eq_of hv.1.1 hv.1.2, hv.2⟩
    · intro h p hp
      obtain ⟨m, hm, hres, hf⟩ := h p hp
      rw [hm]
      simp [fuzzy_compare_modes, hres, hf]

lemma foldl_digitStep (b : List Char) (n : Nat) :
    b.foldl digitStep n = n * 10 ^ b.length + b.foldl digitStep 0 := by
  induction b generalizing n with
  | nil => simp
  | cons c cs ih =>
    rw [List.foldl_cons, List.foldl_cons, ih (digitStep n c), ih (digitStep 0 c)]
    unfold digitStep
    simp only [List.length_cons, pow_succ]
    ring

lemma digitsVal_append (a b : List Char) :
    digitsVal (a ++ b) = digitsVal a * 10 ^ b.length + digitsVal b := by
  have h : digitsVal (a ++ b) = b.foldl digitStep (digitsVal a) := by
    unfold digitsVal
    rw [List.foldl_append]
  rw [h, foldl_digitStep]
  rfl

/-- Claim C6: the manual refresh-rate string parser agrees everywhere with
the claimed description (trim; `^(\d+)(?:\.(\d+))?$`; the exact rational
`{int_part * 10^k + frac_part, 10^k}` for a `k`-digit fractional part,
`{int_part, 1}` without one; failure on regex mismatch or overflow), and a
failure of `make_parsed_config` makes `apply_config` return
`config_parse_fail` with the state and the adapter world untouched — no
display change is attempted. -/
theorem C6_manual_refresh_rate_parsing :
    (∀ s : String, parse_manual_refresh_rate s = manual_refresh_rate_claimC6 s) ∧
    (∀ (a : Adapter) (w : World) (st : SettingsState) (config : VideoConfig)
      (session : LaunchSession),
      make_parsed_config config session = none →
      apply_config_top a w st config session =
        ⟨ApplyResult.config_parse_fail, st, w⟩) := by
  constructor
  · intro s
    rcases h : (charTrim s.toList).splitOn '.' with _ | ⟨a, _ | ⟨b, _ | ⟨c, rest⟩⟩⟩ <;>
      simp only [parse_manual_refresh_rate, manual_refresh_rate_claimC6, h]
    · by_cases hg : a ≠ [] ∧ a.all Char.isDigit
      · rw [if_pos hg, if_pos hg]
        unfold stolDigits
        by_cases hle : digitsVal a ≤ LONG_MAX_32
        · rw [if_pos hle, if_pos hle]
        · rw [if_neg hle, if_neg hle]
      · rw [if_neg hg, if_neg hg]
    · by_cases hg : a ≠ [] ∧ b ≠ [] ∧ a.all Char.isDigit ∧ b.all Char.isDigit
      · rw [if_pos hg, if_pos hg]
        unfold stolDigits
        rw [digitsVal_append]
        by_cases hle : digitsVal a * 10 ^ b.length + digitsVal b ≤ LONG_MAX_32
        · rw [if_pos hle, if_pos hle]
        · rw [if_neg hle, if_neg hle]
      · rw [if_neg hg, if_neg hg]
  · intro a w st config session h
    unfold apply_config_top
    rw [h]

theorem C6_manual_refresh_rate_parsing_witness :
    parse_manual_refresh_rate "59.94" = some ⟨5994, 100⟩ ∧
    make_parsed_config cfgC6bad sess0 = none ∧
    apply_config_top adapter0 World.init state0 cfgC6bad sess0 =
      ⟨ApplyResult.config_parse_fail, state0, World.init⟩ :=
  ⟨(C6_manual_refresh_rate_parsing.1 "59.94").trans (by decide), by decide,
    C6_manual_refresh_rate_parsing.2 adapter0 World.init state0 cfgC6bad sess0 (by decide)⟩

/-- Claim C9: on every exit path after topology handling — the stages
succeeding or any of the primary/modes/HDR stages failing — the
persistence step runs over the merged settings `cur`: with modifications
present the journal is cached and written to disk (a save failure on the
all-stages-succeeded path yields `file_save_fail`); without modifications
but with cached data the journal file is deleted through a full revert;
and a failing stage's code is what the applicator returns. -/
theorem C9_journal_persisted_on_every_exit (a : Adapter) (w : World) (s : SettingsState)
    (config : ParsedConfig) (tr : HandledTopologyData) (f : Option ApplyResult)
    (cur : PersistentData) (w1 : World)
    (hrun : run_stages a w config
      (s.persistent_data.getD ⟨tr.topology_data, "", [], []⟩) tr.metadata = ⟨f, cur, w1⟩) :
    (contains_modifications cur = true →
      (apply_stages_and_persist a w s config tr).state.persistent_data = some cur ∧
      (a.saveOk = true →
        (apply_stages_and_persist a w s config tr).state.fileData = some cur) ∧
      (a.saveOk = false → f = none →
        (apply_stages_and_persist a w s config tr).result = ApplyResult.file_save_fail)) ∧
    (contains_modifications cur = false → s.persistent_data.isSome = true →
      (apply_stages_and_persist a w s config tr).state.fileData = none ∧
      (apply_stages_and_persist a w s config tr).state.persistent_data = none ∧
      (f = none →
        (apply_stages_and_persist a w s config tr).result = ApplyResult.success)) ∧
    (∀ code, f = some code →
      (apply_stages_and_persist a w s config tr).result = code) := by
  have hpd_mod : contains_modifications cur = true →
      (persist_settings a (sync_mem s cur) cur w1).state.persistent_data = some cur := by
    intro hmod
    unfold persist_settings
    rw [if_pos hmod]
    cases hsv : a.saveOk <;> rfl
  have hfile_mod : contains_modifications cur = true → a.saveOk = true →
      (persist_settings a (sync_mem s cur) cur w1).state.fileData = some cur := by
    intro hmod hs
    unfold persist_settings
    rw [if_pos hmod, hs]
    rfl
  have hres_mod : contains_modifications cur = true → a.saveOk = false →
      (persist_settings a (sync_mem s cur) cur w1).result = ApplyResult.file_save_fail := by
    intro hmod hs
    unfold persist_settings
    rw [if_pos hmod, hs]
    rfl
  have hnomod : contains_modifications cur = false → s.persistent_data.isSome = true →
      persist_settings a (sync_mem s cur) cur w1 =
        ⟨ApplyResult.success, ⟨none, none⟩, w1⟩ := by
    intro hmod hpd
    have hsync : (sync_mem s cur).persistent_data = some cur := by
      unfold sync_mem
      rw [if_pos hpd]
    unfold persist_settings revert_settings try_revert_settings
    simp [hmod, hsync]
  cases f with
  | none =>
    have happ : apply_stages_and_persist a w s config tr =
        ⟨(persist_settings a (sync_mem s cur) cur w1).result,
          (persist_settings a (sync_mem s cur) cur w1).state,
          (persist_settings a (sync_mem s cur) cur w1).world⟩ := by
      simp only [apply_stages_and_persist]
      rw [hrun]
    rw [happ]
    refine ⟨fun hmod => ⟨hpd_mod hmod, fun hs => hfile_mod hmod hs,
        fun hs _ => hres_mod hmod hs⟩,
      fun hmod hpd => ?_, fun code hcode => by cases hcode⟩
    rw [hnomod hmod hpd]
    exact ⟨rfl, rfl, fun _ => rfl⟩
  | some code0 =>
    have happ : apply_stages_and_persist a w s config tr =
        ⟨code0, (persist_settings a (sync_mem s cur) cur w1).state,
          (persist_settings a (sync_mem s cur) cur w1).world⟩ := by
      simp only [apply_stages_and_persist]
      rw [hrun]
    rw [happ]
    refine ⟨fun hmod => ⟨hpd_mod hmod, fun hs => hfile_mod hmod hs,
        fun _ hcon => by cases hcon⟩,
      fun hmod hpd => ?_, fun code hcode => by cases hcode; rfl⟩
    rw [hnomod hmod hpd]
    exact ⟨rfl, rfl, fun hcon => by cases hcon⟩

theorem C9_journal_persisted_on_every_exit_witness :
    contains_modifications curW9 = false ∧
    (apply_stages_and_persist adapter0 World.init sW9 cfgW9 trW9).state.fileData = none ∧
    (apply_stages_and_persist adapter0 World.init sW9 cfgW9 trW9).state.persistent_data =
      none ∧
    (apply_stages_and_persist adapter0 World.init sW9 cfgW9 trW9).result =
      ApplyResult.success := by
  have h := (C9_journal_persisted_on_every_exit adapter0 World.init sW9 cfgW9 trW9
    none curW9 World.init (by decide)).2.1 (by decide) (by decide)
  exact ⟨by decide, h.1, h.2.1, h.2.2 rfl⟩

lemma handler_finish_result (req : String) (prim : Bool) (prev2 : Option TopologyPair)
    (cur : ActiveTopology) (dup : List String) (fin : ActiveTopology)
    (s : SettingsState) (failed : Bool) (w : World) (r : HandledTopologyData)
    (h : (handler_finish req prim prev2 cur dup fin s failed w).result = some r) :
    r = ⟨⟨determine_initial_topology_based_on_prev_config prev2 cur, fin⟩,
      ⟨fin, get_newly_enabled_devices_from_topology cur fin, prim, dup⟩⟩ := by
  unfold handler_finish at h
  by_cases hf : is_device_found_in_active_topology req fin = true
  · rw [if_neg (by simp [hf])] at h
    exact (Option.some.inj h).symm
  · rw [if_pos (by simp [Bool.not_eq_true] at hf ⊢; exact hf)] at h
    cases h

lemma handler_reconcile_dup (a : Adapter) (w : World) (s : SettingsState)
    (config : ParsedConfig) (prev : Option TopologyPair) (req : String) (prim : Bool)
    (t0 : ActiveTopology) (p2 : Option TopologyPair) (c : Option ActiveTopology)
    (dup : List String) (fin : ActiveTopology) (s2 : SettingsState) (fl : Bool)
    (w2 : World)
    (h : handler_reconcile a w s config prev req prim t0 = ⟨p2, c, dup, fin, s2, fl, w2⟩) :
    ∃ t, dup = get_duplicate_devices req t := by
  cases prev with
  | none =>
    simp only [handler_reconcile, ReconcileOut.mk.injEq] at h
    exact ⟨t0, h.2.2.1.symm⟩
  | some p =>
    simp only [handler_reconcile] at h
    split at h
    · split at h
      · simp only [ReconcileOut.mk.injEq] at h
        exact ⟨t0, h.2.2.1.symm⟩
      · simp only [ReconcileOut.mk.injEq] at h
        exact ⟨_, h.2.2.1.symm⟩
    · simp only [ReconcileOut.mk.injEq] at h
      exact ⟨t0, h.2.2.1.symm⟩

/-- Claim C10: whenever topology handling succeeds, the returned metadata's
duplicated-devices list is non-empty and headed by the resolved target
device id (the `find_one_of_the_available_devices` result), whatever the
topologies looked like. -/
theorem C10_duplicated_devices_headed_by_resolved_device
    (a : Adapter) (w : World) (s : SettingsState) (config : ParsedConfig)
    (prev : Option TopologyPair) (r : HandledTopologyData)
    (h : (handle_device_topology_configuration a w s config prev).result = some r) :
    r.metadata.duplicated_devices ≠ [] ∧
    r.metadata.duplicated_devices.head? =
      some (find_one_of_the_available_devices a config.device_id) := by
  have main : ∃ t, r.metadata.duplicated_devices =
      get_duplicate_devices (find_one_of_the_available_devices a config.device_id) t := by
    simp only [handle_device_topology_configuration] at h
    split at h
    · exact Option.noConfusion h
    · split at h
      · exact Option.noConfusion h
      · split at h
        · exact Option.noConfusion h
        · rename_i heq
          split at h
          · split at h
            · exact Option.noConfusion h
            · rw [handler_finish_result _ _ _ _ _ _ _ _ _ _ h]
              exact ⟨_, rfl⟩
          · rw [handler_finish_result _ _ _ _ _ _ _ _ _ _ h]
            exact handler_reconcile_dup _ _ _ _ _ _ _ _ _ _ _ _ _ _ _ heq
  obtain ⟨t, ht⟩ := main
  obtain ⟨rest, hc⟩ := get_duplicate_devices_cons
    (find_one_of_the_available_devices a config.device_id) t
  rw [ht, hc]
  exact ⟨by simp, rfl⟩

/-- Claim C5: whenever the planner computes the journal's initial topology
(reified by the reconciliation outputs: the surviving previous-journal
reference `p2` and the current topology `cur` read before any topology
change is applied), the journal data returned on success carries
`p2.initial` when a previous journal still exists and its modified
topology is set-equivalent to `cur`, and `cur` itself in every other
case. -/
theorem C5_initial_topology_from_previous_journal
    (a : Adapter) (w w1 : World) (s : SettingsState) (config : ParsedConfig)
    (prev p2 : Option TopologyPair) (t0 cur : ActiveTopology) (dup : List String)
    (fin : ActiveTopology) (s2 : SettingsState) (failed : Bool) (w2 : World)
    (r : HandledTopologyData)
    (hval : get_and_validate_current_topology a w = (some t0, w1))
    (hrec : handler_reconcile a w1 s config prev
      (find_one_of_the_available_devices a config.device_id)
      config.device_id.isEmpty t0 = ⟨p2, some cur, dup, fin, s2, failed, w2⟩)
    (h : (handle_device_topology_configuration a w s config prev).result = some r) :
    r.topology_data.initial =
      p2.elim cur (fun p => if is_topology_the_same p.modified cur then p.initial else cur) := by
  simp only [handle_device_topology_configuration] at h
  split at h
  · exact Option.noConfusion h
  · split at h
    · rename_i heqv
      rw [hval] at heqv
      simp at heqv
    · rename_i t0x wx heqv
      rw [hval] at heqv
      rw [Prod.mk.injEq] at heqv
      obtain ⟨ht0, hw⟩ := heqv
      injection ht0 with ht0
      subst ht0
      subst hw
      split at h
      · rename_i heqr
        rw [hrec] at heqr
        simp [ReconcileOut.mk.injEq] at heqr
      · rename_i prev2 curx dupx finx sx failedx w2x heqr
        rw [hrec] at heqr
        simp only [ReconcileOut.mk.injEq] at heqr
        obtain ⟨hp2, hcur, hdup, hfin, hsx, hflx, hw2x⟩ := heqr
        injection hcur with hcur
        subst hp2
        subst hcur
        subst hfin
        have hgoal : ∀ (dd : List String) (rr : HandledTopologyData),
            rr = ⟨⟨determine_initial_topology_based_on_prev_config p2 cur, fin⟩,
              ⟨fin, get_newly_enabled_devices_from_topology cur fin,
                config.device_id.isEmpty, dd⟩⟩ →
            rr.topology_data.initial =
              p2.elim cur
                (fun p => if is_topology_the_same p.modified cur then p.initial else cur) := by
          intro dd rr hrr
          rw [hrr]
          cases p2 with
          | none => rfl
          | some p => rfl
        split at h
        · split at h
          · exact Option.noConfusion h
          · exact hgoal _ r (handler_finish_result _ _ _ _ _ _ _ _ _ _ h)
        · exact hgoal _ r (handler_finish_result _ _ _ _ _ _ _ _ _ _ h)

theorem C5_initial_topology_from_previous_journal_witness :
    (handle_device_topology_configuration aW5 World.init state0 cfgW5 prevW5).result =
      some rW5 ∧
    rW5.topology_data.initial = [["B"]] :=
  ⟨by decide,
    (C5_initial_topology_from_previous_journal aW5 World.init ⟨0, 1, 0, 0, []⟩ state0 cfgW5
      prevW5 prevW5 [["A"]] [["A"]] ["A"] [["A"]] state0 false ⟨0, 1, 0, 0, []⟩ rW5
      (by decide) (by decide) (by decide)).trans (by decide)⟩

theorem C10_duplicated_devices_headed_by_resolved_device_witness :
    (handle_device_topology_configuration aW10 World.init state0 cfgW10 none).result =
      some rW10 ∧
    rW10.metadata.duplicated_devices ≠ [] ∧
    rW10.metadata.duplicated_devices.head? =
      some (find_one_of_the_available_devices aW10 cfgW10.device_id) :=
  ⟨by decide,
    C10_duplicated_devices_headed_by_resolved_device aW10 World.init state0 cfgW10 none
      rW10 (by decide)⟩

/-- Claim C7: past its validation prefix, `set_display_modes` (i) first
applies the requested modes with OS adjustments allowed; (ii) when the
read-back after that attempt exists but does not fuzzy-match the request,
it retries exactly once with adjustments disallowed; (iii) it reports
success only when some read-back fuzzy-matched the request; (iv) once the
first attempt went through, every failure path ends by trying to restore
the modes captured before the first attempt (whatever that restore
returns) and reporting failure; and (v) no more than three `do_set_modes`
calls are ever made. -/
theorem C7_set_display_modes_retry_and_restore (e : ModesEnv) (modes : DeviceModeMap)
    (hv : modes_validation_ok e modes) :
    (set_display_modes_impl e modes).calls.head? = some (ModesCall.doSet modes true) ∧
    (e.set_results 0 = true → (e.reads 1).isEmpty = false →
      all_modes_match modes (e.reads 1) = false →
      (set_display_modes_impl e modes).calls.take 2 =
        [ModesCall.doSet modes true, ModesCall.doSet modes false]) ∧
    ((set_display_modes_impl e modes).ok = true →
      all_modes_match modes (e.reads 1) = true ∨
        all_modes_match modes (e.reads 2) = true) ∧
    (e.set_results 0 = true → (set_display_modes_impl e modes).ok = false →
      (set_display_modes_impl e modes).calls.getLast? =
        some (ModesCall.doSet (e.reads 0) true)) ∧
    (set_display_modes_impl e modes).calls.length ≤ 3 := by
  obtain ⟨h1, h2, h3, h4, h5⟩ := hv
  have e1 : modes.isEmpty = false := by
    cases modes
    · exact absurd rfl h1
    · rfl
  have e3 : e.all_duplicated.isEmpty = false := by
    cases he : e.all_duplicated
    · exact absurd he h3
    · rfl
  have e5 : (e.reads 0).isEmpty = false := by
    cases hr : e.reads 0
    · exact absurd hr h5
    · rfl
  simp only [set_display_modes_impl, e1, e3, e5, h2, h4, Bool.false_eq_true, if_false,
    decide_True, Bool.not_true, ne_eq, not_true_eq_false, decide_False]
  cases hs0 : e.set_results 0 <;> cases hr1 : (e.reads 1).isEmpty <;>
    cases hm1 : all_modes_match modes (e.reads 1) <;>
    cases hs1 : e.set_results 1 <;> cases hr2 : (e.reads 2).isEmpty <;>
    cases hm2 : all_modes_match modes (e.reads 2) <;>
      simp [hs0, hr1, hm1, hs1, hr2, hm2]

theorem C7_set_display_modes_retry_and_restore_witness :
    modes_validation_ok eW7 mW7 ∧
    (set_display_modes_impl eW7 mW7).calls.head? = some (ModesCall.doSet mW7 true) :=
  ⟨by unfold modes_validation_ok; decide,
    (C7_set_display_modes_retry_and_restore eW7 mW7
      (by unfold modes_validation_ok; decide)).1⟩

end DisplayDevice
